import Mathlib

/-!
Verification development for the Castle_DirectX "Tree Billboards" demo
(`src/Castle_DirectX/Trees/Trees/TreeBillboardsApp.cpp`).

The relevant parts of the program are shallowly embedded below: pure update
logic becomes Lean functions, the Update/Draw loop becomes a step relation on
an explicit state type, machine integers become `Nat`/`Int`, and the exact
rational arithmetic demanded by the numerical claim is done over `ℚ`.
Floating-point matrix *values* (world transforms and the like) are not
modelled; the structural fields the claims are about (constant-buffer
indices, material names, layers, draw arguments) are embedded faithfully
from the source.  Parts of the textbook framework that are not under `src/`
(the `Waves` grid class, `d3dUtil::CalcConstantBufferByteSize`) are modelled
from the spec and marked as such in their doc comments.
-/

namespace Castle

/-- Number of in-flight frame resources: `const int gNumFrameResources = 3;`
(TreeBillboardsApp.cpp line 20). -/
def gNumFrameResources : Nat := 3

/-- The frame-resource index rotation performed at the top of
`TreeBillboardsApp::Update`:
`mCurrFrameResourceIndex = (mCurrFrameResourceIndex + 1) % gNumFrameResources;`. -/
def nextFrameIndex (i : Nat) : Nat := (i + 1) % gNumFrameResources

/-- The value of `mCurrFrameResourceIndex` after `n` calls to `Update`,
starting from the member initializer `int mCurrFrameResourceIndex = 0;`. -/
def frameIndexAfter : Nat → Nat
  | 0 => 0
  | n + 1 => nextFrameIndex (frameIndexAfter n)

/-- Sizing arguments of one `FrameResource` as constructed by
`TreeBillboardsApp::BuildFrameResources`: pass count, object count, material
count and wave-vertex count (the device argument is not modelled). -/
structure FrameResourceDesc where
  passCount : Nat
  objectCount : Nat
  materialCount : Nat
  waveVertCount : Nat
deriving DecidableEq, Repr

/-- Embedding of `TreeBillboardsApp::BuildFrameResources`: a loop
`for(int i = 0; i < gNumFrameResources; ++i)` pushes one
`FrameResource(device, 1, mAllRitems.size(), mMaterials.size(),
mWaves->VertexCount())` per iteration. -/
def buildFrameResources (objectCount materialCount waveVertCount : Nat) :
    List FrameResourceDesc :=
  (List.range gNumFrameResources).map
    (fun _ => ⟨1, objectCount, materialCount, waveVertCount⟩)

/-- Embedding of `TreeBillboardsApp::AnimateMaterials` over exact rational
arithmetic, as the claim states it.  The source reads the water material's
`MatTransform(3,0)` and `MatTransform(3,1)` entries, adds `0.1f * DeltaTime`
resp. `0.02f * DeltaTime`, subtracts `1.0f` from each result that is
`>= 1.0f`, writes both entries back, and sets the material's
`NumFramesDirty = gNumFrameResources`.  The result triple is
(new tu, new tv, new NumFramesDirty). -/
def animateMaterials (tu tv dt : ℚ) : ℚ × ℚ × Int :=
  let tu1 : ℚ := tu + (1 / 10) * dt
  let tv1 : ℚ := tv + (1 / 50) * dt
  let tu2 : ℚ := if tu1 ≥ 1 then tu1 - 1 else tu1
  let tv2 : ℚ := if tv1 ≥ 1 then tv1 - 1 else tv1
  (tu2, tv2, (gNumFrameResources : Int))

/-- Structural fields of the `Material` objects built by
`TreeBillboardsApp::BuildMaterials`.  The floating-point fields
(`DiffuseAlbedo`, `FresnelR0`, `Roughness`) are not modelled; the claims are
about the name and the two indices. -/
structure Material where
  Name : String
  MatCBIndex : Nat
  DiffuseSrvHeapIndex : Nat
deriving DecidableEq, Repr

/-- Embedding of `TreeBillboardsApp::BuildMaterials`, in the order the
materials are inserted into `mMaterials` (lines 1799-1810 of the source);
each entry carries (Name, MatCBIndex, DiffuseSrvHeapIndex) exactly as
assigned in the source. -/
def buildMaterials : List Material :=
  [ ⟨"grass", 0, 0⟩,
    ⟨"water", 1, 1⟩,
    ⟨"wirefence", 2, 2⟩,
    ⟨"treeSprites", 11, 11⟩,
    ⟨"brick", 3, 3⟩,
    ⟨"ball", 4, 4⟩,
    ⟨"darkBrick", 5, 5⟩,
    ⟨"darkLightBrick", 6, 6⟩,
    ⟨"lightBrick", 7, 7⟩,
    ⟨"redTile", 8, 8⟩,
    ⟨"glass", 9, 9⟩,
    ⟨"sand", 10, 10⟩ ]

/-- Lookup of a material by name, standing for `mMaterials[name].get()`. -/
def findMaterial (name : String) : Option Material :=
  buildMaterials.find? (fun mt => mt.Name == name)

/-- Descriptor count of the SRV heap created by
`TreeBillboardsApp::BuildDescriptorHeaps`: `srvHeapDesc.NumDescriptors = 12;`. -/
def srvHeapNumDescriptors : Nat := 12

/-- The textures whose shader-resource views `BuildDescriptorHeaps` writes
into the SRV heap, in slot order: one `CreateShaderResourceView` call per
slot, each separated by `hDescriptor.Offset(1, mCbvSrvDescriptorSize)`, with
the tree texture array (a `TEXTURE2DARRAY` view) last. -/
def srvHeapTextures : List String :=
  [ "grassTex", "waterTex", "fenceTex", "brickTex", "ballTex",
    "darkBrickTex", "darkLightBrickTex", "lightBrickTex", "redTileTex",
    "glassTex", "sandTex", "treeArrayTex" ]

/-- The texture each material is meant to sample, following the spec's words
that a material's `DiffuseSrvHeapIndex` is "equal to the heap slot holding
that material's texture".  This is the spec-side association (by the
evident naming correspondence of `BuildMaterials` and `LoadTextures`), kept
separate from the source-side `buildMaterials` so the two can be compared. -/
def specMaterialTexture : String → Option String
  | "grass" => some ("grassTex")
  | "water" => some ("waterTex")
  | "wirefence" => some ("fenceTex")
  | "treeSprites" => some ("treeArrayTex")
  | "brick" => some ("brickTex")
  | "ball" => some ("ballTex")
  | "darkBrick" => some ("darkBrickTex")
  | "darkLightBrick" => some ("darkLightBrickTex")
  | "lightBrick" => some ("lightBrickTex")
  | "redTile" => some ("redTileTex")
  | "glass" => some ("glassTex")
  | "sand" => some ("sandTex")
  | _ => none

/-- The four render layers actually drawn (`enum class RenderLayer`; the
`Count` sentinel is not a layer). -/
inductive RenderLayer
  | Opaque
  | Transparent
  | AlphaTested
  | AlphaTestedTreeSprites
deriving DecidableEq, BEq, Repr

/-- Primitive topologies used by the scene's render items. -/
inductive Topology
  | triangleList
  | pointList
deriving DecidableEq, BEq, Repr

/-- Structural fields of a `RenderItem` as set up by
`TreeBillboardsApp::BuildRenderItems`.  The floating-point `World` and
`TexTransform` matrix values are not modelled; `matName`, `geoName` and
`drawArg` stand for the `mMaterials`, `mGeometries` and `DrawArgs` keys used
at the corresponding assignment, and `layer` records which `mRitemLayer`
list the item is pushed onto. -/
structure RItem where
  ObjCBIndex : Nat
  matName : String
  geoName : String
  drawArg : String
  layer : RenderLayer
  topology : Topology
deriving DecidableEq, BEq, Repr

/-- Embedding of `TreeBillboardsApp::BuildBox(cbIndex, translate, scale)`:
every call produces one render item with the given `ObjCBIndex`, the
"brick" material, the "box" submesh of "shapeGeo", pushed onto the
`AlphaTested` layer (the two matrix arguments only affect the unmodelled
`World` matrix). -/
def buildBox (cbIndex : Nat) : RItem :=
  { ObjCBIndex := cbIndex, matName := "brick", geoName := "shapeGeo",
    drawArg := "box", layer := RenderLayer.AlphaTested,
    topology := Topology.triangleList }

/-- The `cbIndex` arguments of the 59 `BuildBox` call sites at the end of
`BuildRenderItems` (source lines 3035-3114), in call order. -/
def buildBoxCbIndices : List Nat :=
  [ 45, 46, 47, 48, 49, 50, 51, 52, 53, 54, 55, 56, 57, 58, 59,
    60, 61, 62, 63, 64, 65, 66, 67, 68, 69, 70, 71, 72, 73, 74,
    75, 76, 77, 78, 79, 80, 81, 82, 83, 84, 85, 86, 87, 88, 89,
    90, 91, 92, 93, 94, 95, 96, 97, 98, 99, 100, 101, 102, 103 ]

/-- Embedding of `TreeBillboardsApp::BuildRenderItems`: the 45 explicitly
constructed render items in `mAllRitems` push order (the `gridRitem` block
is commented out in the source and therefore absent), followed by the 59
items added through the `BuildBox` calls.  Fields are
(ObjCBIndex, material, geometry, draw-args key, layer, topology). -/
def buildRenderItems : List RItem :=
  [ ⟨0, "water", "waterGeo", "grid", RenderLayer.Transparent, Topology.triangleList⟩,
    ⟨1, "grass", "shapeGeo", "box", RenderLayer.Opaque, Topology.triangleList⟩,
    ⟨2, "treeSprites", "treeSpritesGeo", "points", RenderLayer.AlphaTestedTreeSprites, Topology.pointList⟩,
    ⟨3, "darkBrick", "shapeGeo", "box", RenderLayer.AlphaTested, Topology.triangleList⟩,
    ⟨4, "darkBrick", "shapeGeo", "box", RenderLayer.AlphaTested, Topology.triangleList⟩,
    ⟨5, "darkBrick", "shapeGeo", "box", RenderLayer.AlphaTested, Topology.triangleList⟩,
    ⟨6, "darkBrick", "shapeGeo", "box", RenderLayer.AlphaTested, Topology.triangleList⟩,
    ⟨7, "darkBrick", "shapeGeo", "box", RenderLayer.AlphaTested, Topology.triangleList⟩,
    ⟨8, "darkBrick", "shapeGeo", "cylinder", RenderLayer.AlphaTested, Topology.triangleList⟩,
    ⟨9, "darkBrick", "shapeGeo", "cylinder", RenderLayer.AlphaTested, Topology.triangleList⟩,
    ⟨10, "darkBrick", "shapeGeo", "cylinder", RenderLayer.AlphaTested, Topology.triangleList⟩,
    ⟨11, "darkBrick", "shapeGeo", "cylinder", RenderLayer.AlphaTested, Topology.triangleList⟩,
    ⟨12, "redTile", "shapeGeo", "cone", RenderLayer.AlphaTested, Topology.triangleList⟩,
    ⟨13, "redTile", "shapeGeo", "cone", RenderLayer.AlphaTested, Topology.triangleList⟩,
    ⟨14, "redTile", "shapeGeo", "cone", RenderLayer.AlphaTested, Topology.triangleList⟩,
    ⟨15, "redTile", "shapeGeo", "cone", RenderLayer.AlphaTested, Topology.triangleList⟩,
    ⟨16, "darkLightBrick", "shapeGeo", "box", RenderLayer.AlphaTested, Topology.triangleList⟩,
    ⟨17, "darkLightBrick", "shapeGeo", "box", RenderLayer.AlphaTested, Topology.triangleList⟩,
    ⟨18, "darkLightBrick", "shapeGeo", "box", RenderLayer.AlphaTested, Topology.triangleList⟩,
    ⟨19, "darkLightBrick", "shapeGeo", "cylinder", RenderLayer.AlphaTested, Topology.triangleList⟩,
    ⟨20, "darkLightBrick", "shapeGeo", "cylinder", RenderLayer.AlphaTested, Topology.triangleList⟩,
    ⟨21, "glass", "shapeGeo", "diamond", RenderLayer.AlphaTested, Topology.triangleList⟩,
    ⟨22, "glass", "shapeGeo", "diamond", RenderLayer.AlphaTested, Topology.triangleList⟩,
    ⟨23, "ball", "shapeGeo", "sphere", RenderLayer.AlphaTested, Topology.triangleList⟩,
    ⟨24, "ball", "shapeGeo", "sphere", RenderLayer.AlphaTested, Topology.triangleList⟩,
    ⟨25, "sand", "shapeGeo", "triangularPrism", RenderLayer.AlphaTested, Topology.triangleList⟩,
    ⟨26, "sand", "shapeGeo", "triangularPrism", RenderLayer.AlphaTested, Topology.triangleList⟩,
    ⟨27, "sand", "shapeGeo", "triangularPrism", RenderLayer.AlphaTested, Topology.triangleList⟩,
    ⟨28, "sand", "shapeGeo", "wedge", RenderLayer.AlphaTested, Topology.triangleList⟩,
    ⟨29, "sand", "shapeGeo", "wedge", RenderLayer.AlphaTested, Topology.triangleList⟩,
    ⟨30, "sand", "shapeGeo", "triangularPrism", RenderLayer.AlphaTested, Topology.triangleList⟩,
    ⟨31, "lightBrick", "shapeGeo", "box", RenderLayer.AlphaTested, Topology.triangleList⟩,
    ⟨32, "lightBrick", "shapeGeo", "box", RenderLayer.AlphaTested, Topology.triangleList⟩,
    ⟨33, "lightBrick", "shapeGeo", "box", RenderLayer.AlphaTested, Topology.triangleList⟩,
    ⟨34, "lightBrick", "shapeGeo", "box", RenderLayer.AlphaTested, Topology.triangleList⟩,
    ⟨35, "lightBrick", "shapeGeo", "box", RenderLayer.AlphaTested, Topology.triangleList⟩,
    ⟨36, "lightBrick", "shapeGeo", "box", RenderLayer.AlphaTested, Topology.triangleList⟩,
    ⟨37, "lightBrick", "shapeGeo", "box", RenderLayer.AlphaTested, Topology.triangleList⟩,
    ⟨38, "brick", "shapeGeo", "box", RenderLayer.AlphaTested, Topology.triangleList⟩,
    ⟨39, "wirefence", "shapeGeo", "quad", RenderLayer.AlphaTested, Topology.triangleList⟩,
    ⟨40, "glass", "shapeGeo", "tetrahedron", RenderLayer.AlphaTested, Topology.triangleList⟩,
    ⟨41, "glass", "shapeGeo", "tetrahedron", RenderLayer.AlphaTested, Topology.triangleList⟩,
    ⟨42, "glass", "shapeGeo", "pyramid", RenderLayer.AlphaTested, Topology.triangleList⟩,
    ⟨43, "glass", "shapeGeo", "pyramid", RenderLayer.AlphaTested, Topology.triangleList⟩,
    ⟨44, "ball", "shapeGeo", "sphere", RenderLayer.AlphaTested, Topology.triangleList⟩ ]
  ++ buildBoxCbIndices.map buildBox

/-- The `mRitemLayer` list for a given layer: each constructed item is pushed
onto exactly one layer list, in construction order, so the layer list is the
construction sequence filtered by layer. -/
def ritemLayer (l : RenderLayer) : List RItem :=
  buildRenderItems.filter (fun ri => ri.layer == l)

/-- A 4x4 matrix over exact rationals, standing in for `XMFLOAT4X4` (the
source's float entries are modelled exactly). -/
abbrev Mat4 : Type := Matrix (Fin 4) (Fin 4) ℚ

/-- The `ObjectConstants` written by `UpdateObjectCBs`: the World and
TexTransform matrices, stored transposed (`XMMatrixTranspose`). -/
structure ObjectConstants where
  World : Mat4
  TexTransform : Mat4

/-- The fields of a `RenderItem` that `UpdateObjectCBs` reads and writes. -/
structure RenderItemState where
  World : Mat4
  TexTransform : Mat4
  NumFramesDirty : Int
  ObjCBIndex : Nat

/-- The loop body of `TreeBillboardsApp::UpdateObjectCBs` for one render
item: when `NumFramesDirty > 0` it copies the transposed World and
TexTransform into slot `ObjCBIndex` of the current object constant buffer
(`currObjectCB->CopyData`) and decrements `NumFramesDirty`; otherwise it
does nothing. -/
def updateObjectItem (buf : Nat → Option ObjectConstants) (e : RenderItemState) :
    (Nat → Option ObjectConstants) × RenderItemState :=
  if e.NumFramesDirty > 0 then
    (Function.update buf e.ObjCBIndex
      (some { World := e.World.transpose, TexTransform := e.TexTransform.transpose }),
     { e with NumFramesDirty := e.NumFramesDirty - 1 })
  else (buf, e)

/-- Embedding of `TreeBillboardsApp::UpdateObjectCBs`: the loop
`for(auto& e : mAllRitems)` applies the body to each item in order,
threading the current frame resource's object constant buffer. -/
def updateObjectCBs : List RenderItemState → (Nat → Option ObjectConstants) →
    List RenderItemState × (Nat → Option ObjectConstants)
  | [], buf => ([], buf)
  | e :: rest, buf =>
      let p := updateObjectItem buf e
      let q := updateObjectCBs rest p.1
      (p.2 :: q.1, q.2)

/-- The `MaterialConstants` written by `UpdateMaterialCBs`.  Only the
transposed `MatTransform` is modelled; the float colour/roughness fields
(`DiffuseAlbedo`, `FresnelR0`, `Roughness`) are copied alongside it in the
source and carry no claim-relevant structure. -/
structure MaterialConstants where
  MatTransform : Mat4

/-- The fields of a `Material` that `UpdateMaterialCBs` reads and writes. -/
structure MaterialCBState where
  MatTransform : Mat4
  NumFramesDirty : Int
  MatCBIndex : Nat

/-- The loop body of `TreeBillboardsApp::UpdateMaterialCBs` for one
material: when `NumFramesDirty > 0` it copies the transposed MatTransform
into slot `MatCBIndex` of the current material constant buffer and
decrements `NumFramesDirty`; otherwise it does nothing. -/
def updateMaterialItem (buf : Nat → Option MaterialConstants) (mt : MaterialCBState) :
    (Nat → Option MaterialConstants) × MaterialCBState :=
  if mt.NumFramesDirty > 0 then
    (Function.update buf mt.MatCBIndex (some { MatTransform := mt.MatTransform.transpose }),
     { mt with NumFramesDirty := mt.NumFramesDirty - 1 })
  else (buf, mt)

/-- Embedding of `TreeBillboardsApp::UpdateMaterialCBs`: the loop over
`mMaterials` applies the body to each material, threading the current frame
resource's material constant buffer. -/
def updateMaterialCBs : List MaterialCBState → (Nat → Option MaterialConstants) →
    List MaterialCBState × (Nat → Option MaterialConstants)
  | [], buf => ([], buf)
  | mt :: rest, buf =>
      let p := updateMaterialItem buf mt
      let q := updateMaterialCBs rest p.1
      (p.2 :: q.1, q.2)

/-- State for tracking one render item across the rotating frame resources:
the three per-frame object constant buffers, the item, and
`mCurrFrameResourceIndex`. -/
structure PropState where
  bufs : Fin 3 → Nat → Option ObjectConstants
  item : RenderItemState
  idx : Fin 3

/-- One `Update` call as it affects a single render item: the frame index
advances to `(idx + 1) % 3` and `UpdateObjectCBs` runs its loop body for the
item against that frame resource's object constant buffer. -/
def propStep (s : PropState) : PropState :=
  let j : Fin 3 := ⟨(s.idx.val + 1) % 3, by omega⟩
  let p := updateObjectItem (s.bufs j) s.item
  { bufs := Function.update s.bufs j p.1, item := p.2, idx := j }

/-- `n` successive `Update` calls acting on a single render item. -/
def propIter : Nat → PropState → PropState
  | 0, s => s
  | n + 1, s => propIter n (propStep s)

/-- Modelled from the spec: `d3dUtil::CalcConstantBufferByteSize` (the
`d3dUtil` framework file is not under `src/`).  It rounds a byte size up to
the nearest multiple of 256, the hardware constant-buffer alignment; the
textbook computes it as `(byteSize + 255) & ~255`. -/
def calcConstantBufferByteSize (byteSize : Nat) : Nat :=
  (byteSize + 255) / 256 * 256

/-- The fields of `ri->Mat` read by `DrawRenderItems`. -/
structure MatRef where
  MatCBIndex : Nat
  DiffuseSrvHeapIndex : Nat
deriving DecidableEq, Repr

/-- The fields of a `RenderItem` read by `DrawRenderItems`. -/
structure DrawItem where
  ObjCBIndex : Nat
  geoName : String
  topology : Topology
  Mat : MatRef
  IndexCount : Nat
  StartIndexLocation : Nat
  BaseVertexLocation : Int
deriving DecidableEq, Repr

/-- Resource states of the back-buffer transitions recorded in `Draw`. -/
inductive ResState
  | present
  | renderTarget
deriving DecidableEq, Repr

/-- A clear colour, standing for the four float components of
`mMainPassCB.FogColor` (modelled exactly over ℚ). -/
abbrev Color : Type := ℚ × ℚ × ℚ × ℚ

/-- The command-list calls recorded by `Draw` and `DrawRenderItems`, one
constructor per `mCommandList`/`mCommandQueue`/`mSwapChain` call. -/
inductive GpuCmd
  | resetList (psoName : String)
  | setViewports
  | setScissorRects
  | barrier (before after : ResState)
  | clearRTV (color : Color)
  | clearDSV (depth : ℚ) (stencil : Nat)
  | setRenderTargets
  | setDescriptorHeaps
  | setRootSignature
  | setPipelineState (psoName : String)
  | setVertexBuffers (geoName : String)
  | setIndexBuffer (geoName : String)
  | setPrimitiveTopology (t : Topology)
  | setRootDescriptorTable (paramIndex : Nat) (handle : Nat)
  | setRootCBV (paramIndex : Nat) (address : Nat)
  | drawIndexedInstanced (indexCount instanceCount startIndex : Nat)
      (baseVertex : Int) (startInstance : Nat)
  | closeList
  | executeLists
  | presentSwap
deriving DecidableEq, Repr

/-- The body of the `for(size_t i = 0; i < ritems.size(); ++i)` loop of
`TreeBillboardsApp::DrawRenderItems` for one render item `ri`: bind vertex
and index buffers and the topology, offset the SRV-heap start handle by
`ri->Mat->DiffuseSrvHeapIndex` descriptor increments, bind the object and
material constant-buffer addresses at their per-item offsets, and issue
`DrawIndexedInstanced(ri->IndexCount, 1, ri->StartIndexLocation,
ri->BaseVertexLocation, 0)`. -/
def itemCmds (objBase matBase srvStart descSize objCBByteSize matCBByteSize : Nat)
    (ri : DrawItem) : List GpuCmd :=
  [ GpuCmd.setVertexBuffers ri.geoName,
    GpuCmd.setIndexBuffer ri.geoName,
    GpuCmd.setPrimitiveTopology ri.topology,
    GpuCmd.setRootDescriptorTable 0 (srvStart + ri.Mat.DiffuseSrvHeapIndex * descSize),
    GpuCmd.setRootCBV 1 (objBase + ri.ObjCBIndex * objCBByteSize),
    GpuCmd.setRootCBV 3 (matBase + ri.Mat.MatCBIndex * matCBByteSize),
    GpuCmd.drawIndexedInstanced ri.IndexCount 1 ri.StartIndexLocation ri.BaseVertexLocation 0 ]

/-- Embedding of `TreeBillboardsApp::DrawRenderItems`.  `objSize` and
`matSize` stand for `sizeof(ObjectConstants)` and
`sizeof(MaterialConstants)`; the function first rounds them with
`CalcConstantBufferByteSize` (lines 3121-3122) and then records the
commands of each render item in order. -/
def drawRenderItems (objSize matSize objBase matBase srvStart descSize : Nat)
    (ritems : List DrawItem) : List GpuCmd :=
  let objCBByteSize := calcConstantBufferByteSize objSize
  let matCBByteSize := calcConstantBufferByteSize matSize
  ritems.flatMap (itemCmds objBase matBase srvStart descSize objCBByteSize matCBByteSize)

/-- Appending one recorded command, standing for a single
`mCommandList->...` call. -/
def record (cs : List GpuCmd) (c : GpuCmd) : List GpuCmd := cs ++ [c]

/-- Embedding of the command recording of `TreeBillboardsApp::Draw`, one
`record`/append per call in source order (lines 277-324): reset with the
"opaque" pipeline state, viewports and scissor, back-buffer barrier from
present to render-target, clear of the render target to
`mMainPassCB.FogColor` and of the depth/stencil to 1.0 and 0, render-target
binding, descriptor heaps, root signature, pass constant buffer at root
parameter 2, then the four layers with their pipeline states, the barrier
back to present, close, execute, and swap-chain present.  `itemsOf` stands
for `mRitemLayer`, and the remaining arguments for the buffer base
addresses, SRV heap start, descriptor increment and constant sizes. -/
def draw (itemsOf : RenderLayer → List DrawItem)
    (objSize matSize objBase matBase srvStart descSize passAddr : Nat)
    (fog : Color) : List GpuCmd :=
  let cs : List GpuCmd := []
  let cs := record cs (GpuCmd.resetList ("opaque"))
  let cs := record cs GpuCmd.setViewports
  let cs := record cs GpuCmd.setScissorRects
  let cs := record cs (GpuCmd.barrier ResState.present ResState.renderTarget)
  let cs := record cs (GpuCmd.clearRTV fog)
  let cs := record cs (GpuCmd.clearDSV 1 0)
  let cs := record cs GpuCmd.setRenderTargets
  let cs := record cs GpuCmd.setDescriptorHeaps
  let cs := record cs GpuCmd.setRootSignature
  let cs := record cs (GpuCmd.setRootCBV 2 passAddr)
  let cs := cs ++ drawRenderItems objSize matSize objBase matBase srvStart descSize
    (itemsOf RenderLayer.Opaque)
  let cs := record cs (GpuCmd.setPipelineState ("alphaTested"))
  let cs := cs ++ drawRenderItems objSize matSize objBase matBase srvStart descSize
    (itemsOf RenderLayer.AlphaTested)
  let cs := record cs (GpuCmd.setPipelineState ("treeSprites"))
  let cs := cs ++ drawRenderItems objSize matSize objBase matBase srvStart descSize
    (itemsOf RenderLayer.AlphaTestedTreeSprites)
  let cs := record cs (GpuCmd.setPipelineState ("transparent"))
  let cs := cs ++ drawRenderItems objSize matSize objBase matBase srvStart descSize
    (itemsOf RenderLayer.Transparent)
  let cs := record cs (GpuCmd.barrier ResState.renderTarget ResState.present)
  let cs := record cs GpuCmd.closeList
  let cs := record cs GpuCmd.executeLists
  let cs := record cs GpuCmd.presentSwap
  cs

/-- The pipeline states a command trace binds, in order: the state bound at
command-list reset and every later `SetPipelineState`. -/
def psoMarkers (cs : List GpuCmd) : List String :=
  cs.filterMap (fun c => match c with
    | GpuCmd.resetList p => some p
    | GpuCmd.setPipelineState p => some p
    | _ => none)

/-- Whether a command is a draw call. -/
def isDraw : GpuCmd → Bool
  | GpuCmd.drawIndexedInstanced _ _ _ _ _ => true
  | _ => false

/-- Modelled from the spec: `Waves::VertexCount()` of the textbook's `Waves`
class (not under `src/`) for an m-row, n-column grid is `m * n`. -/
def wavesVertexCount (m n : Nat) : Nat := m * n

/-- Modelled from the spec: `Waves::TriangleCount()` of the textbook's
`Waves` class (not under `src/`) for an m-row, n-column grid is
`(m-1) * (n-1) * 2`, two triangles per quad. -/
def wavesTriangleCount (m n : Nat) : Nat := (m - 1) * (n - 1) * 2

/-- The six indices `BuildWavesGeometry` writes for quad (i, j) of an
n-column grid (source lines 937-943). -/
def quadIndices (n i j : Nat) : List Nat :=
  [ i * n + j, i * n + j + 1, (i + 1) * n + j,
    (i + 1) * n + j, i * n + j + 1, (i + 1) * n + j + 1 ]

/-- Embedding of the index-buffer construction of
`TreeBillboardsApp::BuildWavesGeometry`: the nested loops over
`i < m - 1` and `j < n - 1` write six indices per quad at consecutive
positions (`k += 6`). -/
def buildWavesIndices (m n : Nat) : List Nat :=
  (List.range (m - 1)).flatMap (fun i =>
    (List.range (n - 1)).flatMap (fun j => quadIndices n i j))

/-- State of the Update/Draw fence protocol: `frameFence i` is
`mFrameResources[i]->Fence`, `currentFence` is `mCurrentFence`, `currIdx`
is `mCurrFrameResourceIndex`, `gpuCompleted` is
`mFence->GetCompletedValue()`, `phase` tells whether the next application
step is `Draw` (`true`) or `Update` (`false`), and `recorded i` lists the
fence values signalled after each command batch recorded against frame
resource `i` (newest first). -/
structure SyncState where
  frameFence : Fin 3 → Nat
  currentFence : Nat
  currIdx : Fin 3
  gpuCompleted : Nat
  phase : Bool
  recorded : Fin 3 → List Nat

/-- Initial protocol state: all `FrameResource::Fence` values start at 0
(as in the `FrameResource` constructor), `mCurrentFence` at its
post-initialization value 0, `mCurrFrameResourceIndex = 0`, and no command
batches recorded. -/
def initSync : SyncState :=
  { frameFence := fun _ => 0, currentFence := 0, currIdx := 0,
    gpuCompleted := 0, phase := false, recorded := fun _ => [] }

/-- The frame resource `Update` advances to:
`(mCurrFrameResourceIndex + 1) % gNumFrameResources`. -/
def updateTarget (s : SyncState) : Fin 3 :=
  ⟨(s.currIdx.1 + 1) % 3, by omega⟩

/-- Step labels of the protocol. -/
inductive SyncLabel
  | gpuStep
  | updateStep
  | drawStep
deriving DecidableEq, Repr

/-- The Update/Draw step relation.
`gpuStep`: the GPU completes queued work, advancing the fence's completed
value up to at most `mCurrentFence` (a `Signal` for every recorded value up
to `mCurrentFence` is in the queue, and the queue completes in order);
this can interleave anywhere.
`updateStep`: `Update` advances `mCurrFrameResourceIndex` and may proceed
past its wait only when the target frame resource's `Fence` is 0 or the
completed value has reached it (source lines 247-258); the frame
resource's upload buffers are then written (lines 260-264).
`drawStep`: `Draw` records the frame's command batch against the current
frame resource, advances `mCurrentFence` by one, stores it in the current
frame resource's `Fence`, and signals it on the queue (lines 328-333). -/
inductive SyncStep : SyncLabel → SyncState → SyncState → Prop
  | gpuAdvance (s : SyncState) (c : Nat)
      (h1 : s.gpuCompleted ≤ c) (h2 : c ≤ s.currentFence) :
      SyncStep SyncLabel.gpuStep s { s with gpuCompleted := c }
  | update (s : SyncState) (hphase : s.phase = false)
      (hwait : s.frameFence (updateTarget s) = 0 ∨
        s.frameFence (updateTarget s) ≤ s.gpuCompleted) :
      SyncStep SyncLabel.updateStep s
        { s with currIdx := updateTarget s, phase := true }
  | draw (s : SyncState) (hphase : s.phase = true) :
      SyncStep SyncLabel.drawStep s
        { s with
          currentFence := s.currentFence + 1,
          frameFence := Function.update s.frameFence s.currIdx (s.currentFence + 1),
          recorded := Function.update s.recorded s.currIdx
            ((s.currentFence + 1) :: s.recorded s.currIdx),
          phase := false }

/-- Reachability of a protocol state from the initial state. -/
def SyncReachable (s : SyncState) : Prop :=
  Relation.ReflTransGen (fun a b => ∃ l, SyncStep l a b) initSync s

/-- The protocol invariant: the GPU never completes past the last signalled
fence, every frame resource's recorded `Fence` is at most `mCurrentFence`,
every command batch recorded against a frame resource carries a fence value
at most that frame resource's current `Fence`, and a frame resource with
`Fence = 0` has no recorded batches. -/
def SyncInv (s : SyncState) : Prop :=
  s.gpuCompleted ≤ s.currentFence ∧
  ∀ i : Fin 3, s.frameFence i ≤ s.currentFence ∧
    (∀ f ∈ s.recorded i, f ≤ s.frameFence i) ∧
    (s.frameFence i = 0 → s.recorded i = [])

end Castle

namespace Castle

/-- C3: triple buffering.  `BuildFrameResources` constructs exactly
`gNumFrameResources = 3` frame resources, each sized for 1 pass,
`mAllRitems.size()` objects, `mMaterials.size()` materials and
`mWaves->VertexCount()` wave vertices; each `Update` step sets
`mCurrFrameResourceIndex` to (previous index + 1) mod 3; consequently the
index is always in {0, 1, 2}, after `n` Update steps it equals `n mod 3`,
and the same frame resource is re-selected every third frame. -/
theorem C3_triple_buffering (o m w n i : Nat) :
    gNumFrameResources = 3 ∧
    buildFrameResources o m w = List.replicate 3 ⟨1, o, m, w⟩ ∧
    nextFrameIndex i = (i + 1) % 3 ∧
    frameIndexAfter n < 3 ∧
    frameIndexAfter n = n % 3 ∧
    frameIndexAfter (n + 3) = frameIndexAfter n := by
  have hval : ∀ k, frameIndexAfter k = k % 3 := by
    intro k
    induction k with
    | zero => rfl
    | succ k ih =>
        simp only [frameIndexAfter, nextFrameIndex, gNumFrameResources, ih]
        omega
  refine ⟨rfl, ?_, rfl, ?_, hval n, ?_⟩
  · simp [buildFrameResources, gNumFrameResources, List.range_succ]
  · rw [hval]; omega
  · rw [hval, hval]; omega

/-- C10: water texture scroll bound.  Over exact rational arithmetic, if the
water material's `MatTransform(3,0)` and `MatTransform(3,1)` entries are in
[0, 1) and `0 ≤ DeltaTime ≤ 10`, then `AnimateMaterials` adds `0.1 * dt` to
the first entry and `0.02 * dt` to the second, subtracts 1 from each result
that is ≥ 1, leaving both entries again in [0, 1), and sets the water
material's `NumFramesDirty` to `gNumFrameResources = 3`. -/
theorem C10_animate_materials_bound (tu tv dt : ℚ)
    (htu0 : 0 ≤ tu) (htu1 : tu < 1)
    (htv0 : 0 ≤ tv) (htv1 : tv < 1)
    (hdt0 : 0 ≤ dt) (hdt1 : dt ≤ 10) :
    0 ≤ (animateMaterials tu tv dt).1 ∧ (animateMaterials tu tv dt).1 < 1 ∧
    0 ≤ (animateMaterials tu tv dt).2.1 ∧ (animateMaterials tu tv dt).2.1 < 1 ∧
    (animateMaterials tu tv dt).2.2 = 3 := by
  simp only [animateMaterials, gNumFrameResources]
  split_ifs with h1 h2 h2 <;>
    refine ⟨by linarith, by linarith, by linarith, by linarith, rfl⟩

/-- Witness for C10 at `tu = 9/10`, `tv = 1/2`, `dt = 2`. -/
theorem C10_animate_materials_bound_witness :
    0 ≤ (animateMaterials (9/10) (1/2) 2).1 ∧
    (animateMaterials (9/10) (1/2) 2).1 < 1 ∧
    0 ≤ (animateMaterials (9/10) (1/2) 2).2.1 ∧
    (animateMaterials (9/10) (1/2) 2).2.1 < 1 ∧
    (animateMaterials (9/10) (1/2) 2).2.2 = 3 :=
  C10_animate_materials_bound (9/10) (1/2) 2 (by norm_num) (by norm_num)
    (by norm_num) (by norm_num) (by norm_num) (by norm_num)

/-- Helper: `UpdateObjectCBs` maps each render item to itself with the dirty
counter decremented exactly when it was positive. -/
theorem updateObjectCBs_fst (es : List RenderItemState) (b : Nat → Option ObjectConstants) :
    (updateObjectCBs es b).1 = es.map (fun x =>
      if x.NumFramesDirty > 0 then { x with NumFramesDirty := x.NumFramesDirty - 1 } else x) := by
  induction es generalizing b with
  | nil => rfl
  | cons a rest ih =>
      simp only [updateObjectCBs, updateObjectItem, List.map_cons]
      split <;> simp [ih]

/-- Helper: `UpdateObjectCBs` leaves every buffer slot that is no item's
`ObjCBIndex` untouched. -/
theorem updateObjectCBs_frame (es : List RenderItemState) (b : Nat → Option ObjectConstants)
    (k : Nat) (hk : k ∉ es.map (fun x => x.ObjCBIndex)) :
    (updateObjectCBs es b).2 k = b k := by
  induction es generalizing b with
  | nil => rfl
  | cons a rest ih =>
      simp only [List.map_cons, List.mem_cons, not_or] at hk
      simp only [updateObjectCBs]
      rw [ih _ hk.2]
      simp only [updateObjectItem]
      split
      · exact Function.update_noteq hk.1 _ _
      · rfl

/-- Helper: when the items carry pairwise distinct `ObjCBIndex` values,
`UpdateObjectCBs` writes the transposed matrices to a dirty item's slot and
leaves a clean item's slot unchanged. -/
theorem updateObjectCBs_slot (es : List RenderItemState) (b : Nat → Option ObjectConstants)
    (hnd : (es.map (fun x => x.ObjCBIndex)).Nodup)
    (e : RenderItemState) (he : e ∈ es) :
    (updateObjectCBs es b).2 e.ObjCBIndex =
      if e.NumFramesDirty > 0
      then some { World := e.World.transpose, TexTransform := e.TexTransform.transpose }
      else b e.ObjCBIndex := by
  induction es generalizing b with
  | nil => cases he
  | cons a rest ih =>
      simp only [List.map_cons, List.nodup_cons] at hnd
      rcases List.mem_cons.mp he with rfl | he'
      · simp only [updateObjectCBs]
        rw [updateObjectCBs_frame _ _ _ hnd.1]
        simp only [updateObjectItem]
        split
        · exact Function.update_same _ _ _
        · rfl
      · simp only [updateObjectCBs]
        rw [ih _ hnd.2 he']
        split
        · rfl
        · simp only [updateObjectItem]
          have hne : e.ObjCBIndex ≠ a.ObjCBIndex := by
            intro hcontra
            exact hnd.1 (hcontra ▸ List.mem_map_of_mem (fun x => x.ObjCBIndex) he')
          split
          · exact Function.update_noteq hne _ _
          · rfl

/-- Helper: `UpdateMaterialCBs` maps each material to itself with the dirty
counter decremented exactly when it was positive. -/
theorem updateMaterialCBs_fst (ms : List MaterialCBState) (b : Nat → Option MaterialConstants) :
    (updateMaterialCBs ms b).1 = ms.map (fun x =>
      if x.NumFramesDirty > 0 then { x with NumFramesDirty := x.NumFramesDirty - 1 } else x) := by
  induction ms generalizing b with
  | nil => rfl
  | cons a rest ih =>
      simp only [updateMaterialCBs, updateMaterialItem, List.map_cons]
      split <;> simp [ih]

/-- Helper: `UpdateMaterialCBs` leaves every buffer slot that is no
material's `MatCBIndex` untouched. -/
theorem updateMaterialCBs_frame (ms : List MaterialCBState) (b : Nat → Option MaterialConstants)
    (k : Nat) (hk : k ∉ ms.map (fun x => x.MatCBIndex)) :
    (updateMaterialCBs ms b).2 k = b k := by
  induction ms generalizing b with
  | nil => rfl
  | cons a rest ih =>
      simp only [List.map_cons, List.mem_cons, not_or] at hk
      simp only [updateMaterialCBs]
      rw [ih _ hk.2]
      simp only [updateMaterialItem]
      split
      · exact Function.update_noteq hk.1 _ _
      · rfl

/-- Helper: when the materials carry pairwise distinct `MatCBIndex` values,
`UpdateMaterialCBs` writes the transposed `MatTransform` to a dirty
material's slot and leaves a clean material's slot unchanged. -/
theorem updateMaterialCBs_slot (ms : List MaterialCBState) (b : Nat → Option MaterialConstants)
    (hnd : (ms.map (fun x => x.MatCBIndex)).Nodup)
    (mt : MaterialCBState) (hmt : mt ∈ ms) :
    (updateMaterialCBs ms b).2 mt.MatCBIndex =
      if mt.NumFramesDirty > 0
      then some { MatTransform := mt.MatTransform.transpose }
      else b mt.MatCBIndex := by
  induction ms generalizing b with
  | nil => cases hmt
  | cons a rest ih =>
      simp only [List.map_cons, List.nodup_cons] at hnd
      rcases List.mem_cons.mp hmt with rfl | hmt'
      · simp only [updateMaterialCBs]
        rw [updateMaterialCBs_frame _ _ _ hnd.1]
        simp only [updateMaterialItem]
        split
        · exact Function.update_same _ _ _
        · rfl
      · simp only [updateMaterialCBs]
        rw [ih _ hnd.2 hmt']
        split
        · rfl
        · simp only [updateMaterialItem]
          have hne : mt.MatCBIndex ≠ a.MatCBIndex := by
            intro hcontra
            exact hnd.1 (hcontra ▸ List.mem_map_of_mem (fun x => x.MatCBIndex) hmt')
          split
          · exact Function.update_noteq hne _ _
          · rfl

/-- Helper: once a render item's dirty counter is exhausted, further
`Update` steps change neither the per-frame buffers nor the item. -/
theorem propIter_stable (k : Nat) (s : PropState) (hd : s.item.NumFramesDirty ≤ 0) :
    (propIter k s).bufs = s.bufs ∧ (propIter k s).item = s.item := by
  induction k generalizing s with
  | zero => exact ⟨rfl, rfl⟩
  | succ k ih =>
      have hbufs : (propStep s).bufs = s.bufs := by
        simp only [propStep, updateObjectItem]
        rw [if_neg (by omega)]
        exact Function.update_eq_self _ _
      have hitem : (propStep s).item = s.item := by
        simp only [propStep, updateObjectItem]
        rw [if_neg (by omega)]
      have := ih (propStep s) (by rw [hitem]; exact hd)
      exact ⟨this.1.trans hbufs, this.2.trans hitem⟩

/-- Helper: starting from a freshly modified item (`NumFramesDirty = 3`),
three `Update` steps deposit the transposed matrices into the item's slot of
all three frame resources and exhaust the dirty counter. -/
theorem propIter_three (s : PropState) (hd : s.item.NumFramesDirty = 3) :
    (∀ j : Fin 3, (propIter 3 s).bufs j s.item.ObjCBIndex
      = some { World := s.item.World.transpose, TexTransform := s.item.TexTransform.transpose }) ∧
    (propIter 3 s).item = { s.item with NumFramesDirty := 0 } := by
  obtain ⟨bufs, ⟨W, T, d, oi⟩, i⟩ := s
  simp only at hd
  subst hd
  constructor
  · intro j
    fin_cases i <;> fin_cases j <;>
      simp [propIter, propStep, updateObjectItem, Function.update_apply, apply_ite]
  · fin_cases i <;>
      simp [propIter, propStep, updateObjectItem]

/-- C2: per-object/per-material dirty propagation.  `UpdateObjectCBs`
decrements each item's counter exactly when it is positive and leaves it
unchanged otherwise; under distinct slot indices a dirty item's slot in the
current frame resource's object constant buffer receives the transposed
World and TexTransform matrices while a clean item's slot is untouched;
`UpdateMaterialCBs` behaves the same per material at slot `MatCBIndex`.
After a modification sets `NumFramesDirty = gNumFrameResources = 3`, the
next three Updates visit three pairwise distinct frame resources, each of
which receives the new constants, after which no further copies occur. -/
theorem C2_dirty_propagation
    (es : List RenderItemState) (b : Nat → Option ObjectConstants)
    (ms : List MaterialCBState) (mb : Nat → Option MaterialConstants)
    (e : RenderItemState) (mt : MaterialCBState) (s : PropState)
    (hnd : (es.map (fun x => x.ObjCBIndex)).Nodup) (he : e ∈ es)
    (hmnd : (ms.map (fun x => x.MatCBIndex)).Nodup) (hmt : mt ∈ ms)
    (hd : s.item.NumFramesDirty = 3) :
    ((updateObjectCBs es b).1 = es.map (fun x =>
      if x.NumFramesDirty > 0 then { x with NumFramesDirty := x.NumFramesDirty - 1 } else x)) ∧
    ((updateObjectCBs es b).2 e.ObjCBIndex =
      if e.NumFramesDirty > 0
      then some { World := e.World.transpose, TexTransform := e.TexTransform.transpose }
      else b e.ObjCBIndex) ∧
    ((updateMaterialCBs ms mb).1 = ms.map (fun x =>
      if x.NumFramesDirty > 0 then { x with NumFramesDirty := x.NumFramesDirty - 1 } else x)) ∧
    ((updateMaterialCBs ms mb).2 mt.MatCBIndex =
      if mt.NumFramesDirty > 0
      then some { MatTransform := mt.MatTransform.transpose }
      else mb mt.MatCBIndex) ∧
    (∀ j : Fin 3, (propIter 3 s).bufs j s.item.ObjCBIndex
      = some { World := s.item.World.transpose, TexTransform := s.item.TexTransform.transpose }) ∧
    ((propIter 3 s).item = { s.item with NumFramesDirty := 0 }) ∧
    ([nextFrameIndex s.idx.1, nextFrameIndex (nextFrameIndex s.idx.1),
      nextFrameIndex (nextFrameIndex (nextFrameIndex s.idx.1))].Nodup) ∧
    (∀ k, (propIter k (propIter 3 s)).bufs = (propIter 3 s).bufs ∧
      (propIter k (propIter 3 s)).item = (propIter 3 s).item) := by
  have h3 := propIter_three s hd
  have hrot : ∀ idx : Fin 3, [nextFrameIndex idx.1, nextFrameIndex (nextFrameIndex idx.1),
      nextFrameIndex (nextFrameIndex (nextFrameIndex idx.1))].Nodup := by decide
  refine ⟨updateObjectCBs_fst es b, updateObjectCBs_slot es b hnd e he,
    updateMaterialCBs_fst ms mb, updateMaterialCBs_slot ms mb hmnd mt hmt,
    h3.1, h3.2, hrot s.idx, ?_⟩
  intro k
  exact propIter_stable k _ (by rw [h3.2])

/-- Witness for C2 at a one-item scene (identity World, zero TexTransform,
`NumFramesDirty = 3`, slot 0), a one-material list, and a propagation state
starting at frame index 0 with empty buffers. -/
theorem C2_dirty_propagation_witness :
    (propIter 3 (PropState.mk (fun _ _ => none) (RenderItemState.mk 1 0 3 0) 0)).item
      = { RenderItemState.mk 1 0 3 0 with NumFramesDirty := 0 } :=
  (C2_dirty_propagation
    [RenderItemState.mk 1 0 3 0] (fun _ => none)
    [MaterialCBState.mk 1 3 0] (fun _ => none)
    (RenderItemState.mk 1 0 3 0) (MaterialCBState.mk 1 3 0)
    (PropState.mk (fun _ _ => none) (RenderItemState.mk 1 0 3 0) 0)
    (by simp) (List.mem_singleton.mpr rfl)
    (by simp) (List.mem_singleton.mpr rfl)
    rfl).2.2.2.2.2.1

/-- Helper: the length of a flat map whose blocks all have length `c`. -/
theorem flatMap_length_const {α β : Type} (f : α → List β) (c : Nat)
    (hc : ∀ a, (f a).length = c) (ls : List α) :
    (ls.flatMap f).length = ls.length * c := by
  induction ls with
  | nil => simp
  | cons a tl ih =>
      simp only [List.flatMap_cons, List.length_append, ih, hc, List.length_cons]
      ring

/-- Helper: dropping `c * k + r` elements of a flat map with constant block
length `c` lands `r` elements into the `k`-th block. -/
theorem flatMap_drop {α β : Type} (f : α → List β) (c : Nat)
    (hc : ∀ a, (f a).length = c) :
    ∀ (ls : List α) (k : Nat) (h : k < ls.length), ∀ r ≤ c,
      (ls.flatMap f).drop (c * k + r)
        = (f (ls.get ⟨k, h⟩)).drop r ++ (ls.drop (k + 1)).flatMap f := by
  intro ls
  induction ls with
  | nil => intro k h; exact absurd h (Nat.not_lt_zero k)
  | cons a tl ih =>
      intro k h r hr
      cases k with
      | zero =>
          simp only [List.flatMap_cons, Nat.mul_zero, Nat.zero_add]
          rw [List.drop_append_of_le_length (by rw [hc a]; exact hr)]
          rfl
      | succ k =>
          simp only [List.flatMap_cons]
          have harith : c * (k + 1) + r = (f a).length + (c * k + r) := by
            rw [hc a]; ring
          rw [harith, List.drop_append]
          exact ih k (Nat.lt_of_succ_lt_succ h) r hr

/-- Helper: the `k`-th block of a flat map with constant block length `c`. -/
theorem flatMap_extract {α β : Type} (f : α → List β) (c : Nat)
    (hc : ∀ a, (f a).length = c)
    (ls : List α) (k : Nat) (h : k < ls.length) :
    ((ls.flatMap f).drop (c * k)).take c = f (ls.get ⟨k, h⟩) := by
  have hd := flatMap_drop f c hc ls k h 0 (Nat.zero_le c)
  rw [Nat.add_zero] at hd
  rw [hd, List.drop_zero]
  exact List.take_left' (hc _)

/-- C4: render-item draw arguments.  `DrawRenderItems` records, for each
render item in order: the item's vertex/index buffers and topology, the
descriptor-table handle at the SRV heap start offset by
`DiffuseSrvHeapIndex` descriptor increments, the object constant-buffer
address at `ObjectCB base + ObjCBIndex *
CalcConstantBufferByteSize(sizeof(ObjectConstants))`, the material
constant-buffer address at `MaterialCB base + MatCBIndex *
CalcConstantBufferByteSize(sizeof(MaterialConstants))`, and a
`DrawIndexedInstanced` with the item's IndexCount, StartIndexLocation and
BaseVertexLocation and exactly one instance; the `k`-th item's commands
occupy the `k`-th seven-command block of the recording. -/
theorem C4_draw_render_items (objSize matSize objBase matBase srvStart descSize : Nat)
    (ritems : List DrawItem) (k : Nat) (hk : k < ritems.length) :
    (drawRenderItems objSize matSize objBase matBase srvStart descSize ritems
      = ritems.flatMap (fun ri =>
        [ GpuCmd.setVertexBuffers ri.geoName,
          GpuCmd.setIndexBuffer ri.geoName,
          GpuCmd.setPrimitiveTopology ri.topology,
          GpuCmd.setRootDescriptorTable 0 (srvStart + ri.Mat.DiffuseSrvHeapIndex * descSize),
          GpuCmd.setRootCBV 1 (objBase + ri.ObjCBIndex * calcConstantBufferByteSize objSize),
          GpuCmd.setRootCBV 3 (matBase + ri.Mat.MatCBIndex * calcConstantBufferByteSize matSize),
          GpuCmd.drawIndexedInstanced ri.IndexCount 1 ri.StartIndexLocation
            ri.BaseVertexLocation 0 ])) ∧
    ((drawRenderItems objSize matSize objBase matBase srvStart descSize ritems).drop
        (7 * k)).take 7
      = itemCmds objBase matBase srvStart descSize (calcConstantBufferByteSize objSize)
          (calcConstantBufferByteSize matSize) (ritems.get ⟨k, hk⟩) := by
  constructor
  · rfl
  · exact flatMap_extract
      (itemCmds objBase matBase srvStart descSize (calcConstantBufferByteSize objSize)
        (calcConstantBufferByteSize matSize)) 7 (fun _ => rfl) ritems k hk

/-- Witness for C4: the single-item list occupies block 0 of the recording. -/
theorem C4_draw_render_items_witness :
    ((drawRenderItems 1 1 0 0 0 1
        [DrawItem.mk 0 ("waterGeo") Topology.triangleList (MatRef.mk 1 1) 6 0 0]).drop
        (7 * 0)).take 7
      = itemCmds 0 0 0 1 (calcConstantBufferByteSize 1) (calcConstantBufferByteSize 1)
          (([DrawItem.mk 0 ("waterGeo") Topology.triangleList (MatRef.mk 1 1) 6 0 0]).get
            ⟨0, by decide⟩) :=
  (C4_draw_render_items 1 1 0 0 0 1
    [DrawItem.mk 0 ("waterGeo") Topology.triangleList (MatRef.mk 1 1) 6 0 0]
    0 (by decide)).2

/-- Helper: `psoMarkers` distributes over concatenation of recordings. -/
theorem psoMarkers_append (a b : List GpuCmd) :
    psoMarkers (a ++ b) = psoMarkers a ++ psoMarkers b :=
  List.filterMap_append a b _

/-- Helper: the per-item recording of `DrawRenderItems` binds no pipeline
state. -/
theorem psoMarkers_drawRenderItems (objSize matSize objBase matBase srvStart descSize : Nat)
    (ritems : List DrawItem) :
    psoMarkers (drawRenderItems objSize matSize objBase matBase srvStart descSize ritems)
      = [] := by
  induction ritems with
  | nil => rfl
  | cons a tl ih =>
      simp only [drawRenderItems, List.flatMap_cons] at ih ⊢
      simp only [psoMarkers, List.filterMap_append] at ih ⊢
      rw [ih]
      rfl

/-- Helper: the draw calls of `DrawRenderItems` are exactly one
`DrawIndexedInstanced` per item, in order. -/
theorem filter_isDraw_drawRenderItems
    (objSize matSize objBase matBase srvStart descSize : Nat)
    (ritems : List DrawItem) :
    (drawRenderItems objSize matSize objBase matBase srvStart descSize ritems).filter isDraw
      = ritems.map (fun ri => GpuCmd.drawIndexedInstanced ri.IndexCount 1
          ri.StartIndexLocation ri.BaseVertexLocation 0) := by
  induction ritems with
  | nil => rfl
  | cons a tl ih =>
      simp only [drawRenderItems, List.flatMap_cons] at ih ⊢
      simp only [List.filter_append, List.map_cons, ih]
      rfl

/-- C5: draw ordering.  Every `Draw` records the back-buffer transition
from present to render-target and the clears (fog colour, depth 1.0,
stencil 0) before any layer, then the layers in the fixed order Opaque
(under the "opaque" pipeline state bound at command-list reset),
AlphaTested ("alphaTested"), AlphaTestedTreeSprites ("treeSprites"),
Transparent ("transparent"), and finally the transition back to present;
the bound pipeline states are exactly those four in order, and the draw
calls are exactly the four layers' items in that order. -/
theorem C5_draw_ordering (itemsOf : RenderLayer → List DrawItem)
    (objSize matSize objBase matBase srvStart descSize passAddr : Nat) (fog : Color) :
    (draw itemsOf objSize matSize objBase matBase srvStart descSize passAddr fog
      = [ GpuCmd.resetList ("opaque"), GpuCmd.setViewports, GpuCmd.setScissorRects,
          GpuCmd.barrier ResState.present ResState.renderTarget,
          GpuCmd.clearRTV fog, GpuCmd.clearDSV 1 0,
          GpuCmd.setRenderTargets, GpuCmd.setDescriptorHeaps, GpuCmd.setRootSignature,
          GpuCmd.setRootCBV 2 passAddr ]
        ++ drawRenderItems objSize matSize objBase matBase srvStart descSize
            (itemsOf RenderLayer.Opaque)
        ++ [GpuCmd.setPipelineState ("alphaTested")]
        ++ drawRenderItems objSize matSize objBase matBase srvStart descSize
            (itemsOf RenderLayer.AlphaTested)
        ++ [GpuCmd.setPipelineState ("treeSprites")]
        ++ drawRenderItems objSize matSize objBase matBase srvStart descSize
            (itemsOf RenderLayer.AlphaTestedTreeSprites)
        ++ [GpuCmd.setPipelineState ("transparent")]
        ++ drawRenderItems objSize matSize objBase matBase srvStart descSize
            (itemsOf RenderLayer.Transparent)
        ++ [GpuCmd.barrier ResState.renderTarget ResState.present,
            GpuCmd.closeList, GpuCmd.executeLists, GpuCmd.presentSwap]) ∧
    psoMarkers (draw itemsOf objSize matSize objBase matBase srvStart descSize passAddr fog)
      = [("opaque"), ("alphaTested"), ("treeSprites"), ("transparent")] ∧
    (draw itemsOf objSize matSize objBase matBase srvStart descSize passAddr fog).filter isDraw
      = (itemsOf RenderLayer.Opaque ++ itemsOf RenderLayer.AlphaTested
          ++ itemsOf RenderLayer.AlphaTestedTreeSprites
          ++ itemsOf RenderLayer.Transparent).map
        (fun ri => GpuCmd.drawIndexedInstanced ri.IndexCount 1 ri.StartIndexLocation
          ri.BaseVertexLocation 0) := by
  have h1 : draw itemsOf objSize matSize objBase matBase srvStart descSize passAddr fog
      = [ GpuCmd.resetList ("opaque"), GpuCmd.setViewports, GpuCmd.setScissorRects,
          GpuCmd.barrier ResState.present ResState.renderTarget,
          GpuCmd.clearRTV fog, GpuCmd.clearDSV 1 0,
          GpuCmd.setRenderTargets, GpuCmd.setDescriptorHeaps, GpuCmd.setRootSignature,
          GpuCmd.setRootCBV 2 passAddr ]
        ++ drawRenderItems objSize matSize objBase matBase srvStart descSize
            (itemsOf RenderLayer.Opaque)
        ++ [GpuCmd.setPipelineState ("alphaTested")]
        ++ drawRenderItems objSize matSize objBase matBase srvStart descSize
            (itemsOf RenderLayer.AlphaTested)
        ++ [GpuCmd.setPipelineState ("treeSprites")]
        ++ drawRenderItems objSize matSize objBase matBase srvStart descSize
            (itemsOf RenderLayer.AlphaTestedTreeSprites)
        ++ [GpuCmd.setPipelineState ("transparent")]
        ++ drawRenderItems objSize matSize objBase matBase srvStart descSize
            (itemsOf RenderLayer.Transparent)
        ++ [GpuCmd.barrier ResState.renderTarget ResState.present,
            GpuCmd.closeList, GpuCmd.executeLists, GpuCmd.presentSwap] := by
    simp [draw, record]
  refine ⟨h1, ?_, ?_⟩
  · rw [h1]
    simp only [psoMarkers_append, psoMarkers_drawRenderItems,
      List.append_nil, List.nil_append]
    rfl
  · rw [h1]
    simp only [List.filter_append, filter_isDraw_drawRenderItems, List.map_append]
    simp [isDraw]

/-- C9: waves index buffer.  `BuildWavesGeometry` produces an index list of
exactly `3 * TriangleCount` entries; for every quad (i, j) with
`i < RowCount - 1` and `j < ColumnCount - 1` the six consecutive entries
written for that quad are `i*n+j, i*n+j+1, (i+1)*n+j, (i+1)*n+j, i*n+j+1,
(i+1)*n+j+1` with `n = ColumnCount` (two triangles per quad); and every
written index is strictly below `VertexCount`. -/
theorem C9_waves_index_buffer (m n i j : Nat) (hi : i < m - 1) (hj : j < n - 1) :
    (buildWavesIndices m n).length = 3 * wavesTriangleCount m n ∧
    ((buildWavesIndices m n).drop (6 * (i * (n - 1) + j))).take 6 = quadIndices n i j ∧
    (∀ x ∈ buildWavesIndices m n, x < wavesVertexCount m n) := by
  refine ⟨?_, ?_, ?_⟩
  · unfold buildWavesIndices
    rw [flatMap_length_const (fun a => (List.range (n - 1)).flatMap (fun b => quadIndices n a b))
        ((n - 1) * 6) (fun a => by
          rw [flatMap_length_const (fun b => quadIndices n a b) 6 (fun _ => rfl)]
          simp)]
    simp only [List.length_range, wavesTriangleCount]
    ring
  · have hiR : i < (List.range (m - 1)).length := by simpa using hi
    have hjR : j < (List.range (n - 1)).length := by simpa using hj
    have hrowlen : ∀ a : Nat,
        ((List.range (n - 1)).flatMap (fun b => quadIndices n a b)).length = (n - 1) * 6 := by
      intro a
      rw [flatMap_length_const (fun b => quadIndices n a b) 6 (fun _ => rfl)]
      simp
    have houter := flatMap_drop
      (fun a => (List.range (n - 1)).flatMap (fun b => quadIndices n a b))
      ((n - 1) * 6) hrowlen (List.range (m - 1)) i hiR (6 * j) (by omega)
    have hget : (List.range (m - 1)).get ⟨i, hiR⟩ = i := by simp
    rw [hget] at houter
    have hinner := flatMap_drop (fun b => quadIndices n i b) 6 (fun _ => rfl)
      (List.range (n - 1)) j hjR 0 (Nat.zero_le 6)
    have hget2 : (List.range (n - 1)).get ⟨j, hjR⟩ = j := by simp
    rw [hget2, Nat.add_zero, List.drop_zero] at hinner
    unfold buildWavesIndices
    rw [show 6 * (i * (n - 1) + j) = (n - 1) * 6 * i + 6 * j by ring]
    simp only [houter, hinner, List.append_assoc]
    exact List.take_left' rfl
  · intro x hx
    simp only [buildWavesIndices, List.mem_flatMap, List.mem_range] at hx
    obtain ⟨a, ha, b, hb, hmem⟩ := hx
    have hp : a * n ≤ (a + 1) * n := Nat.mul_le_mul_right n (by omega)
    have hq : (a + 1) * n ≤ (m - 1) * n := Nat.mul_le_mul_right n (by omega)
    have hm1 : m - 1 + 1 = m := by omega
    have hv : (m - 1) * n + n = m * n := by
      calc (m - 1) * n + n = (m - 1 + 1) * n := by ring
        _ = m * n := by rw [hm1]
    have hbn : b + 1 < n := by omega
    simp only [quadIndices, List.mem_cons, List.not_mem_nil, or_false] at hmem
    unfold wavesVertexCount
    rcases hmem with rfl | rfl | rfl | rfl | rfl | rfl <;> linarith

/-- Witness for C9 on the 4x4 grid at quad (1, 2). -/
theorem C9_waves_index_buffer_witness :
    ((buildWavesIndices 4 4).drop (6 * (1 * (4 - 1) + 2))).take 6 = quadIndices 4 1 2 :=
  (C9_waves_index_buffer 4 4 1 2 (by decide) (by decide)).2.1

/-- Helper: the initial protocol state satisfies the fence invariant. -/
theorem syncInv_init : SyncInv initSync := by
  refine ⟨Nat.le_refl 0, fun i => ⟨Nat.le_refl 0, ?_, fun _ => rfl⟩⟩
  intro f hf
  cases hf

/-- Helper: every protocol step preserves the fence invariant. -/
theorem syncInv_step (l : SyncLabel) (s sp : SyncState)
    (h : SyncStep l s sp) (hinv : SyncInv s) : SyncInv sp := by
  cases h with
  | gpuAdvance s c h1 h2 => exact ⟨h2, hinv.2⟩
  | update s hphase hwait => exact ⟨hinv.1, hinv.2⟩
  | draw s hphase =>
      refine ⟨Nat.le_succ_of_le hinv.1, fun i => ?_⟩
      by_cases hi : i = s.currIdx
      · subst hi
        refine ⟨?_, ?_, ?_⟩
        · simp [Function.update_same]
        · intro f hf
          simp only [Function.update_same] at hf ⊢
          rcases List.mem_cons.mp hf with rfl | hf
          · exact Nat.le_refl _
          · exact Nat.le_succ_of_le
              (Nat.le_trans ((hinv.2 s.currIdx).2.1 f hf) (hinv.2 s.currIdx).1)
        · intro h0
          simp [Function.update_same] at h0
      · refine ⟨?_, ?_, ?_⟩
        · simp only [Function.update_noteq hi]
          exact Nat.le_succ_of_le (hinv.2 i).1
        · intro f hf
          simp only [Function.update_noteq hi] at hf ⊢
          exact (hinv.2 i).2.1 f hf
        · intro h0
          simp only [Function.update_noteq hi] at h0 ⊢
          exact (hinv.2 i).2.2 h0

/-- Helper: every reachable protocol state satisfies the fence invariant. -/
theorem syncReachable_inv (s : SyncState) (h : SyncReachable s) : SyncInv s := by
  induction h with
  | refl => exact syncInv_init
  | tail hab hstep ih =>
      obtain ⟨l, hl⟩ := hstep
      exact syncInv_step l _ _ hl ih

/-- C1: GPU/CPU fence synchronization.  Every `Draw` step increments the
global fence `mCurrentFence`, records the new value in the current frame
resource's `Fence`, and signals it after the frame's command batch; and,
from every reachable state, when an `Update` step advances to the next
frame resource (past its wait, which requires that frame resource's
recorded `Fence` to be 0 or at most the fence's completed value), every
command batch recorded against that frame resource carries a fence value
the GPU has already completed — so the frame resource's upload buffers are
written only when the GPU has completed all commands recorded against it. -/
theorem C1_fence_synchronization (s sp : SyncState) (hreach : SyncReachable s) :
    (SyncStep SyncLabel.drawStep s sp →
      sp.currentFence = s.currentFence + 1 ∧
      sp.frameFence s.currIdx = sp.currentFence ∧
      sp.recorded s.currIdx = sp.currentFence :: s.recorded s.currIdx) ∧
    (SyncStep SyncLabel.updateStep s sp →
      ∀ f ∈ s.recorded sp.currIdx, f ≤ s.gpuCompleted) := by
  constructor
  · intro h
    cases h with
    | draw s hphase =>
        exact ⟨rfl, Function.update_same _ _ _, Function.update_same _ _ _⟩
  · intro h
    cases h with
    | update s hphase hwait =>
        intro f hf
        have hinv := syncReachable_inv s hreach
        rcases hwait with h0 | hle
        · rw [(hinv.2 (updateTarget s)).2.2 h0] at hf
          cases hf
        · exact Nat.le_trans ((hinv.2 (updateTarget s)).2.1 f hf) hle

/-- Witness for C1: after the first `Update` step from the initial state,
the first `Draw` step advances the global fence from 0 to 1, records 1 in
frame resource 1's `Fence`, and tags the recorded batch with fence value 1. -/
theorem C1_fence_synchronization_witness :
    ({ initSync with
        currIdx := updateTarget initSync,
        currentFence := initSync.currentFence + 1,
        frameFence := Function.update initSync.frameFence (updateTarget initSync)
          (initSync.currentFence + 1),
        recorded := Function.update initSync.recorded (updateTarget initSync)
          ((initSync.currentFence + 1) :: initSync.recorded (updateTarget initSync)),
        phase := false } : SyncState).currentFence = initSync.currentFence + 1 ∧
    Function.update initSync.frameFence (updateTarget initSync)
        (initSync.currentFence + 1) (updateTarget initSync)
      = initSync.currentFence + 1 ∧
    Function.update initSync.recorded (updateTarget initSync)
        ((initSync.currentFence + 1) :: initSync.recorded (updateTarget initSync))
        (updateTarget initSync)
      = (initSync.currentFence + 1) :: initSync.recorded (updateTarget initSync) :=
  (C1_fence_synchronization
      { initSync with currIdx := updateTarget initSync, phase := true }
      { { initSync with currIdx := updateTarget initSync, phase := true } with
        currentFence := initSync.currentFence + 1,
        frameFence := Function.update initSync.frameFence (updateTarget initSync)
          (initSync.currentFence + 1),
        recorded := Function.update initSync.recorded (updateTarget initSync)
          ((initSync.currentFence + 1) :: initSync.recorded (updateTarget initSync)),
        phase := false }
      (Relation.ReflTransGen.tail Relation.ReflTransGen.refl
        ⟨SyncLabel.updateStep, SyncStep.update initSync rfl (Or.inl rfl)⟩)).1
    (SyncStep.draw { initSync with currIdx := updateTarget initSync, phase := true } rfl)

/-- C6: descriptor-heap indexing.  The SRV heap is created with exactly 12
descriptors and `BuildDescriptorHeaps` fills exactly 12 shader-resource
views (slots 0 through 11, with the tree texture array in slot 11); every
material built by `BuildMaterials` has `DiffuseSrvHeapIndex` below 12 and
that heap slot holds that material's texture; and for every render item the
`DiffuseSrvHeapIndex` used for the descriptor-table offset in
`DrawRenderItems` resolves to a material whose index is in bounds. -/
theorem C6_descriptor_heap_indexing :
    srvHeapNumDescriptors = 12 ∧
    srvHeapTextures.length = 12 ∧
    srvHeapTextures[11]? = some ("treeArrayTex") ∧
    (buildMaterials.all (fun mt =>
      decide (mt.DiffuseSrvHeapIndex < srvHeapNumDescriptors) &&
      (srvHeapTextures[mt.DiffuseSrvHeapIndex]? == specMaterialTexture mt.Name))
      = true) ∧
    (buildRenderItems.all (fun ri =>
      (findMaterial ri.matName).isSome &&
      decide (((findMaterial ri.matName).map
          (fun mt => mt.DiffuseSrvHeapIndex)).getD srvHeapNumDescriptors
        < srvHeapNumDescriptors)) = true) := by
  refine ⟨rfl, rfl, rfl, by decide, by decide⟩

/-- C7 counterexample: the claim says `mAllRitems` holds at least 200 render
items after `BuildRenderItems`, but the list built there has exactly 104
elements (45 explicit items plus 59 `BuildBox` calls). -/
theorem C7_counterexample :
    buildRenderItems.length = 104 ∧ ¬ (200 ≤ buildRenderItems.length) := by
  decide

/-- C7 amended: the hand-placed scene geometry consists of on the order of a
hundred box/cylinder/cone instances; after `BuildRenderItems` (including all
`BuildBox` calls) completes, `mAllRitems` holds exactly 104 render items, so
at least 100 but not at least 200. -/
theorem C7_scene_scale :
    buildRenderItems.length = 104 ∧ 100 ≤ buildRenderItems.length := by
  decide

/-- C8: object constant-buffer index uniqueness.  The `ObjCBIndex` values of
the render items created by `BuildRenderItems` (including those added via
`BuildBox`) are, in push order, exactly 0..103 — hence pairwise distinct and
covering that range; `mAllRitems.size() = 104` is the object count each
frame resource's object constant buffer is sized with in
`BuildFrameResources`; and every `ObjCBIndex` is below that count, so each
`CopyData` in `UpdateObjectCBs` targets a distinct in-bounds slot. -/
theorem C8_objcb_index_uniqueness (w : Nat) :
    buildRenderItems.map (fun ri => ri.ObjCBIndex) = List.range 104 ∧
    (buildRenderItems.map (fun ri => ri.ObjCBIndex)).Nodup ∧
    buildRenderItems.length = 104 ∧
    buildFrameResources buildRenderItems.length buildMaterials.length w
      = List.replicate 3 ⟨1, 104, 12, w⟩ ∧
    (buildRenderItems.all
      (fun ri => decide (ri.ObjCBIndex < buildRenderItems.length)) = true) := by
  have hmap : buildRenderItems.map (fun ri => ri.ObjCBIndex) = List.range 104 := by
    decide
  refine ⟨hmap, ?_, by decide, ?_, by decide⟩
  · rw [hmap]; exact List.nodup_range 104
  · have hlen : buildRenderItems.length = 104 := by decide
    have hmat : buildMaterials.length = 12 := by decide
    rw [hlen, hmat]
    simp [buildFrameResources, gNumFrameResources, List.range_succ]

end Castle
